import Mathlib

/-!
Shallow embedding of the fsutils Go library (`system_path.go`,
`user_permissions.go`) and verification of its specification.

The OS boundary (the `os.Stat`, `os.Getwd` and `syscall.Get*id` calls) is
modelled by passing the syscall results as explicit parameters: a
`SystemPath` is the pair that `os.Stat` produced, a `UserDetails` is the
four identity integers, and `GetCurrentDir` receives the `os.Getwd` result.
Everything after the syscall is translated statement by statement from the
Go source.
-/

/-- Result of a Go computation that may panic at run time (method call on a
nil interface value, or a failed type assertion). -/
inductive PanicOr (α : Type) where
| panic (msg : String) : PanicOr α
| ok (val : α) : PanicOr α
deriving DecidableEq, Repr

/-- The Go runtime message produced by calling a method on a nil interface. -/
def nilInterfaceMsg : String :=
  "runtime error: invalid memory address or nil pointer dereference"

/-- Errors produced by the OS layer (`os.Stat`, `os.Getwd`), classified the
way the `os` package predicates distinguish them. -/
inductive GoError where
| notExist
| permissionDenied
| other
deriving DecidableEq, Repr

/-- Go `os.IsNotExist`: true exactly when the error reports that a path does
not exist; false on a nil error and on every other error. -/
def goIsNotExist : Option GoError → Bool
| some GoError.notExist => true
| _ => false

/-- Linux `syscall.Stat_t`, restricted to the fields the library reads.
`Uid` and `Gid` are `uint32` in Go, modelled as natural numbers. -/
structure Stat_t where
  uid : Nat
  gid : Nat
deriving DecidableEq, Repr

/-- Go `os.FileInfo` as used by the library: the mode bits (`Mode()`), the
size (`Size()`) and the platform-specific record returned by `Sys()`. -/
structure FileInfo where
  mode : Nat
  size : Int
  sys : Stat_t
deriving DecidableEq, Repr

/-- Go `os.ModeDir`. -/
def ModeDir : Nat := 2 ^ 31

/-- Go `os.ModeAppend`. -/
def ModeAppend : Nat := 2 ^ 30

/-- Go `os.ModeExclusive`. -/
def ModeExclusive : Nat := 2 ^ 29

/-- Go `os.ModeTemporary`. -/
def ModeTemporary : Nat := 2 ^ 28

/-- Go `os.ModeSymlink`. -/
def ModeSymlink : Nat := 2 ^ 27

/-- Go `os.ModeDevice`. -/
def ModeDevice : Nat := 2 ^ 26

/-- Go `os.ModeNamedPipe`. -/
def ModeNamedPipe : Nat := 2 ^ 25

/-- Go `os.ModeSocket`. -/
def ModeSocket : Nat := 2 ^ 24

/-- Go `os.ModeSetuid`. -/
def ModeSetuid : Nat := 2 ^ 23

/-- Go `os.ModeSetgid`. -/
def ModeSetgid : Nat := 2 ^ 22

/-- Go `os.ModeCharDevice`. -/
def ModeCharDevice : Nat := 2 ^ 21

/-- Go `os.ModeSticky`. -/
def ModeSticky : Nat := 2 ^ 20

/-- Go `os.ModeIrregular`. -/
def ModeIrregular : Nat := 2 ^ 19

/-- Go `os.ModeType`: the union of all type bits. -/
def ModeType : Nat :=
  ModeDir ||| ModeSymlink ||| ModeNamedPipe ||| ModeSocket ||| ModeDevice |||
    ModeCharDevice ||| ModeIrregular

/-- Go `os.ModePerm`: the Unix permission bits 0777. -/
def ModePerm : Nat := 0o777

/-- IRUSR Read by owner (`system_path.go`). -/
def IRUSR : Nat := 0o400

/-- IREAD Read by owner. -/
def IREAD : Nat := 0o400

/-- IWUSR Write by owner. -/
def IWUSR : Nat := 0o200

/-- IWRITE Write by owner. -/
def IWRITE : Nat := 0o200

/-- IXUSR Execute/search by owner. -/
def IXUSR : Nat := 0o100

/-- IEXEC Execute/search by owner. -/
def IEXEC : Nat := 0o100

/-- IRGRP Read by group. -/
def IRGRP : Nat := 0o040

/-- IWGRP Write by group. -/
def IWGRP : Nat := 0o020

/-- IXGRP Execute/search by group. -/
def IXGRP : Nat := 0o010

/-- IROTH Read by others. -/
def IROTH : Nat := 0o004

/-- IWOTH Write by others. -/
def IWOTH : Nat := 0o002

/-- IXOTH Execute/search by others. -/
def IXOTH : Nat := 0o001

/-- `SystemPath` stores the result of the single `os.Stat` call made at
construction time: a file-status record (nil on failure) and the error. -/
structure SystemPath where
  stat : Option FileInfo
  err : Option GoError
deriving DecidableEq, Repr

/-- `SystemInit`: builds the snapshot from the `os.Stat` result. -/
def SystemInit (stat : Option FileInfo) (err : Option GoError) : SystemPath :=
  ⟨stat, err⟩

/-- `HaveError`: whether construction returned an error. -/
def SystemPath.HaveError (s : SystemPath) : Bool := s.err.isSome

/-- `Error`: the captured construction error. -/
def SystemPath.Error (s : SystemPath) : Option GoError := s.err

/-- `IsStat`: false when construction failed, otherwise whether the mode
contains every bit of `istat`. When the error is nil Go dereferences
`s.stat`; `os.Stat` guarantees a non-nil `FileInfo` whenever the error is
nil, so the panic branch models the (unreachable) nil dereference. -/
def SystemPath.IsStat (s : SystemPath) (istat : Nat) : PanicOr Bool :=
  if s.err.isSome then .ok false
  else
    match s.stat with
    | some fi => .ok (decide ((fi.mode &&& istat) = istat))
    | none => .panic nilInterfaceMsg

/-- `IsDir`. -/
def SystemPath.IsDir (s : SystemPath) : PanicOr Bool := s.IsStat ModeDir

/-- `IsExist`: `os.IsNotExist(s.err) == false`. -/
def SystemPath.IsExist (s : SystemPath) : Bool := goIsNotExist s.err == false

/-- `IsSymlink`. -/
def SystemPath.IsSymlink (s : SystemPath) : PanicOr Bool := s.IsStat ModeSymlink

/-- `IsAppend`. -/
def SystemPath.IsAppend (s : SystemPath) : PanicOr Bool := s.IsStat ModeAppend

/-- `IsExclusive`. -/
def SystemPath.IsExclusive (s : SystemPath) : PanicOr Bool :=
  s.IsStat ModeExclusive

/-- `IsTemporary`. -/
def SystemPath.IsTemporary (s : SystemPath) : PanicOr Bool :=
  s.IsStat ModeTemporary

/-- `IsDevice`. -/
def SystemPath.IsDevice (s : SystemPath) : PanicOr Bool := s.IsStat ModeDevice

/-- `IsNamedPipe`. -/
def SystemPath.IsNamedPipe (s : SystemPath) : PanicOr Bool :=
  s.IsStat ModeNamedPipe

/-- `IsSocket`. -/
def SystemPath.IsSocket (s : SystemPath) : PanicOr Bool := s.IsStat ModeSocket

/-- `IsCharDevice`. -/
def SystemPath.IsCharDevice (s : SystemPath) : PanicOr Bool :=
  s.IsStat ModeCharDevice

/-- `HasSetUID`. -/
def SystemPath.HasSetUID (s : SystemPath) : PanicOr Bool := s.IsStat ModeSetuid

/-- `HasSetGid`. -/
def SystemPath.HasSetGid (s : SystemPath) : PanicOr Bool := s.IsStat ModeSetgid

/-- `IsSticky`. -/
def SystemPath.IsSticky (s : SystemPath) : PanicOr Bool := s.IsStat ModeSticky

/-- `IsRegularFile`: Go's `Mode().IsRegular()`, i.e. no type bit set. -/
def SystemPath.IsRegularFile (s : SystemPath) : PanicOr Bool :=
  if s.err.isSome then .ok false
  else
    match s.stat with
    | some fi => .ok (decide ((fi.mode &&& ModeType) = 0))
    | none => .panic nilInterfaceMsg

/-- `HavePerm`: Go's `(s.stat.Mode().Perm() & perm) == perm`, where
`Perm()` is `mode & ModePerm`. -/
def SystemPath.HavePerm (s : SystemPath) (perm : Nat) : PanicOr Bool :=
  if s.err.isSome then .ok false
  else
    match s.stat with
    | some fi => .ok (decide (((fi.mode &&& ModePerm) &&& perm) = perm))
    | none => .panic nilInterfaceMsg

/-- `IsOwnerReadable`. -/
def SystemPath.IsOwnerReadable (s : SystemPath) : PanicOr Bool :=
  s.HavePerm IRUSR

/-- `IsOwnerWriteable`. -/
def SystemPath.IsOwnerWriteable (s : SystemPath) : PanicOr Bool :=
  s.HavePerm IWUSR

/-- `IsOwnerExecutable`. -/
def SystemPath.IsOwnerExecutable (s : SystemPath) : PanicOr Bool :=
  s.HavePerm IXUSR

/-- `IsGroupReadable`. -/
def SystemPath.IsGroupReadable (s : SystemPath) : PanicOr Bool :=
  s.HavePerm IRGRP

/-- `IsGroupWriteable`. -/
def SystemPath.IsGroupWriteable (s : SystemPath) : PanicOr Bool :=
  s.HavePerm IWGRP

/-- `IsGroupExecutable`. -/
def SystemPath.IsGroupExecutable (s : SystemPath) : PanicOr Bool :=
  s.HavePerm IXGRP

/-- `IsOtherReadable`. -/
def SystemPath.IsOtherReadable (s : SystemPath) : PanicOr Bool :=
  s.HavePerm IROTH

/-- `IsOtherWriteable`. -/
def SystemPath.IsOtherWriteable (s : SystemPath) : PanicOr Bool :=
  s.HavePerm IWOTH

/-- `IsOtherExecutable`. -/
def SystemPath.IsOtherExecutable (s : SystemPath) : PanicOr Bool :=
  s.HavePerm IXOTH

/-- `GetUID`: `s.stat.Sys().(*syscall.Stat_t).Uid`, guarded by `uid >= 0`.
When `s.stat` is nil (failed construction) the `Sys()` call panics. -/
def SystemPath.GetUID (s : SystemPath) : PanicOr (Nat × Option String) :=
  match s.stat with
  | none => .panic nilInterfaceMsg
  | some fi =>
    let uid := fi.sys.uid
    if uid ≥ 0 then .ok (uid, none)
    else .ok (0, some "Invalid value for uid")

/-- `GetGID`: exactly as in the source, which at `system_path.go` line 203
reads the `Uid` field of the `Stat_t` record, not `Gid`. -/
def SystemPath.GetGID (s : SystemPath) : PanicOr (Nat × Option String) :=
  match s.stat with
  | none => .panic nilInterfaceMsg
  | some fi =>
    let gid := fi.sys.uid
    if gid ≥ 0 then .ok (gid, none)
    else .ok (0, some "Invalid value for gid")

/-- `UserDetails` (`user_permissions.go`): the four process-identity
integers captured by `InitUser`. Go's `syscall.Getuid` etc. return `int`. -/
structure UserDetails where
  uid : Int
  gid : Int
  euid : Int
  egid : Int
deriving DecidableEq, Repr

/-- `InitUser`: packs the four `syscall.Get*id()` results. -/
def InitUser (uid gid euid egid : Int) : UserDetails := ⟨uid, gid, euid, egid⟩

/-- `UserDetails.GetUID`. -/
def UserDetails.GetUID (u : UserDetails) : Int := u.uid

/-- `UserDetails.GetGID`. -/
def UserDetails.GetGID (u : UserDetails) : Int := u.gid

/-- `UserDetails.GetEUid`. -/
def UserDetails.GetEUid (u : UserDetails) : Int := u.euid

/-- `UserDetails.GetEGid`. -/
def UserDetails.GetEGid (u : UserDetails) : Int := u.egid

/-- Go conversion `uint32(i)` for an `int` value: two's-complement
truncation to 32 bits, read as an unsigned number. -/
def goUInt32OfInt (i : Int) : Nat := (i % (2 ^ 32)).toNat

/-- `IsReadable`: owner, then group, then other resolution against the
identity snapshot `user` that Go fetches with `InitUser()` at call time.
The extraction errors of `GetUID`/`GetGID` are discarded (`fileuid, _ :=`),
but a panic inside them still propagates. -/
def SystemPath.IsReadable (s : SystemPath) (user : UserDetails) :
    PanicOr Bool :=
  match s.GetUID with
  | .panic m => .panic m
  | .ok (fileuid, _) =>
    match s.GetGID with
    | .panic m => .panic m
    | .ok (filegid, _) =>
      if fileuid = goUInt32OfInt user.GetUID then s.IsOwnerReadable
      else if filegid = goUInt32OfInt user.GetGID then s.IsGroupReadable
      else s.IsOtherReadable

/-- `IsWriteable`: same shape as `IsReadable`. -/
def SystemPath.IsWriteable (s : SystemPath) (user : UserDetails) :
    PanicOr Bool :=
  match s.GetUID with
  | .panic m => .panic m
  | .ok (fileuid, _) =>
    match s.GetGID with
    | .panic m => .panic m
    | .ok (filegid, _) =>
      if fileuid = goUInt32OfInt user.GetUID then s.IsOwnerWriteable
      else if filegid = goUInt32OfInt user.GetGID then s.IsGroupWriteable
      else s.IsOtherWriteable

/-- `IsExecutible` (source spelling): same shape as `IsReadable`. -/
def SystemPath.IsExecutible (s : SystemPath) (user : UserDetails) :
    PanicOr Bool :=
  match s.GetUID with
  | .panic m => .panic m
  | .ok (fileuid, _) =>
    match s.GetGID with
    | .panic m => .panic m
    | .ok (filegid, _) =>
      if fileuid = goUInt32OfInt user.GetUID then s.IsOwnerExecutable
      else if filegid = goUInt32OfInt user.GetGID then s.IsGroupExecutable
      else s.IsOtherExecutable

/-- `Size`: `s.stat.Size()`; panics on a nil `FileInfo`. -/
def SystemPath.Size (s : SystemPath) : PanicOr Int :=
  match s.stat with
  | none => .panic nilInterfaceMsg
  | some fi => .ok fi.size

/-- `os.PathSeparator` on the POSIX platforms the library targets. -/
def PathSeparator : Char := '/'

/-- `GetCurrentDir`: receives the `os.Getwd` result pair; empty string on
error, otherwise the directory with the separator appended when asked. -/
def GetCurrentDir (getwd : String × Option GoError) (endseperator : Bool) :
    String :=
  match getwd with
  | (_, some _) => ""
  | (dir, none) =>
    if endseperator then dir ++ String.singleton PathSeparator else dir

/-- Last character of a string, the notion of "ends with the separator"
used below. -/
def lastChar (s : String) : Option Char := s.data.getLast?

/-- Concrete snapshot used by the purity witness. -/
def sampleSnapshot : SystemPath := ⟨some ⟨0o644, 120, ⟨5, 6⟩⟩, none⟩

/-- Concrete identity used by the purity witness. -/
def sampleUser : UserDetails := ⟨5, 6, 5, 6⟩

/-! Helper lemmas about `Nat` bit masks. -/

/-- A conjunction of bits absorbs into the mask exactly when every set bit
of the mask is set in the other operand. -/
theorem land_absorb_iff (a b : Nat) :
    a &&& b = b ↔ ∀ i, b.testBit i = true → a.testBit i = true := by
  constructor
  · intro h i hb
    have h' := congrArg (fun x => Nat.testBit x i) h
    simp only [Nat.testBit_land, hb, Bool.and_true] at h'
    exact h'
  · intro h
    apply Nat.eq_of_testBit_eq
    intro j
    rcases hb : b.testBit j with _ | _
    · simp [Nat.testBit_land, hb]
    · simp [Nat.testBit_land, hb, h j hb]

/-- Testing a single-bit mask. -/
theorem land_twopow_eq_iff (a i : Nat) :
    a &&& 2 ^ i = 2 ^ i ↔ a.testBit i = true := by
  rw [land_absorb_iff]
  constructor
  · intro h
    exact h i Nat.testBit_two_pow_self
  · intro h j hj
    rcases Decidable.em (j = i) with h' | h'
    · exact h' ▸ h
    · rw [Nat.testBit_two_pow_of_ne (fun e => h' e.symm)] at hj
      exact absurd hj (by simp)

/-- A single permission bit inside the `Perm()` mask reduces to `testBit`. -/
theorem decide_perm_bit (m i : Nat) (h7 : (0o777 : Nat).testBit i = true) :
    decide ((m &&& 0o777) &&& 2 ^ i = 2 ^ i) = m.testBit i := by
  rcases h : m.testBit i with _ | _
  · simp only [decide_eq_false_iff_not]
    rw [land_twopow_eq_iff]
    simp [Nat.testBit_land, h]
  · simp only [decide_eq_true_eq]
    rw [land_twopow_eq_iff]
    simp [Nat.testBit_land, h, h7]

/-! Claim theorems. -/

/-- C3: on a snapshot whose construction failed (`stat` nil), the code does
NOT return an explicit failure value from `GetUID`/`GetGID`: the `Sys()`
call on the nil interface panics. This evaluates the code at the failing
input, a snapshot of a nonexistent path. -/
theorem getUID_getGID_panic_on_failed_snapshot :
    (SystemPath.mk none (some GoError.notExist)).GetUID
        = PanicOr.panic nilInterfaceMsg ∧
      (SystemPath.mk none (some GoError.notExist)).GetGID
        = PanicOr.panic nilInterfaceMsg :=
  ⟨rfl, rfl⟩

/-- C4: on a snapshot whose construction failed (error present), every
type/attribute predicate returns `false` and does not panic. -/
theorem predicates_false_on_error (s : SystemPath)
    (h : s.err.isSome = true) :
    s.IsDir = .ok false ∧ s.IsSymlink = .ok false ∧
      s.IsRegularFile = .ok false ∧ s.IsDevice = .ok false ∧
      s.IsNamedPipe = .ok false ∧ s.IsSocket = .ok false ∧
      s.IsCharDevice = .ok false ∧ s.IsAppend = .ok false ∧
      s.IsExclusive = .ok false ∧ s.IsTemporary = .ok false ∧
      s.HasSetUID = .ok false ∧ s.HasSetGid = .ok false ∧
      s.IsSticky = .ok false := by
  refine ⟨?_, ?_, ?_, ?_, ?_, ?_, ?_, ?_, ?_, ?_, ?_, ?_, ?_⟩ <;>
    simp [SystemPath.IsDir, SystemPath.IsSymlink, SystemPath.IsRegularFile,
      SystemPath.IsDevice, SystemPath.IsNamedPipe, SystemPath.IsSocket,
      SystemPath.IsCharDevice, SystemPath.IsAppend, SystemPath.IsExclusive,
      SystemPath.IsTemporary, SystemPath.HasSetUID, SystemPath.HasSetGid,
      SystemPath.IsSticky, SystemPath.IsStat, h]

/-- Witness for C4 at a concrete failed snapshot. -/
theorem predicates_false_on_error_witness :
    (SystemPath.mk none (some GoError.permissionDenied)).IsDir = .ok false ∧
      (SystemPath.mk none (some GoError.permissionDenied)).IsSymlink
        = .ok false ∧
      (SystemPath.mk none (some GoError.permissionDenied)).IsRegularFile
        = .ok false ∧
      (SystemPath.mk none (some GoError.permissionDenied)).IsDevice
        = .ok false ∧
      (SystemPath.mk none (some GoError.permissionDenied)).IsNamedPipe
        = .ok false ∧
      (SystemPath.mk none (some GoError.permissionDenied)).IsSocket
        = .ok false ∧
      (SystemPath.mk none (some GoError.permissionDenied)).IsCharDevice
        = .ok false ∧
      (SystemPath.mk none (some GoError.permissionDenied)).IsAppend
        = .ok false ∧
      (SystemPath.mk none (some GoError.permissionDenied)).IsExclusive
        = .ok false ∧
      (SystemPath.mk none (some GoError.permissionDenied)).IsTemporary
        = .ok false ∧
      (SystemPath.mk none (some GoError.permissionDenied)).HasSetUID
        = .ok false ∧
      (SystemPath.mk none (some GoError.permissionDenied)).HasSetGid
        = .ok false ∧
      (SystemPath.mk none (some GoError.permissionDenied)).IsSticky
        = .ok false :=
  predicates_false_on_error (SystemPath.mk none (some GoError.permissionDenied))
    rfl

/-- C5: `IsExist` is false exactly when the captured construction error is
the not-found error; a nil error or any other error yields true. -/
theorem isExist_false_iff_notExist (s : SystemPath) :
    s.IsExist = false ↔ s.err = some GoError.notExist := by
  rcases s with ⟨st, err⟩
  rcases err with _ | e
  · simp [SystemPath.IsExist, goIsNotExist]
  · cases e <;> simp [SystemPath.IsExist, goIsNotExist]

/-- C10: whenever the stat data is present, `GetUID` and `GetGID` return a
nil error: the extracted value is an unsigned quantity, so the `>= 0` guard
always holds and the "Invalid value" branch is unreachable. (Both return
the `Uid` field, as the source does.) -/
theorem getUID_getGID_no_error (s : SystemPath) (fi : FileInfo)
    (hs : s.stat = some fi) :
    s.GetUID = .ok (fi.sys.uid, none) ∧ s.GetGID = .ok (fi.sys.uid, none) := by
  constructor <;> simp [SystemPath.GetUID, SystemPath.GetGID, hs]

/-- Witness for C10 at a concrete snapshot with stat data present. -/
theorem getUID_getGID_no_error_witness :
    (SystemPath.mk (some (FileInfo.mk 0o644 3 (Stat_t.mk 42 7))) none).GetUID
        = .ok (42, none) ∧
      (SystemPath.mk (some (FileInfo.mk 0o644 3 (Stat_t.mk 42 7))) none).GetGID
        = .ok (42, none) :=
  getUID_getGID_no_error
    (SystemPath.mk (some (FileInfo.mk 0o644 3 (Stat_t.mk 42 7))) none)
    (FileInfo.mk 0o644 3 (Stat_t.mk 42 7)) rfl

/-- C6: on a successfully constructed snapshot, `HavePerm` returns true
exactly when every bit set in the requested mask is set in the permission
portion (`mode &&& ModePerm`) of the path's mode; equivalently, one missing
requested bit forces false. -/
theorem havePerm_iff_all_bits (s : SystemPath) (fi : FileInfo) (perm : Nat)
    (he : s.err = none) (hs : s.stat = some fi) :
    s.HavePerm perm = .ok true ↔
      ∀ i, perm.testBit i = true → (fi.mode &&& ModePerm).testBit i = true := by
  have hperm : s.HavePerm perm
      = .ok (decide ((fi.mode &&& ModePerm) &&& perm = perm)) := by
    simp [SystemPath.HavePerm, he, hs]
  rw [hperm]
  simp only [PanicOr.ok.injEq, decide_eq_true_eq]
  exact land_absorb_iff (fi.mode &&& ModePerm) perm

/-- Witness for C6 at mode 0644 and requested mask 0600. -/
theorem havePerm_iff_all_bits_witness :
    (SystemPath.mk (some (FileInfo.mk 0o644 0 (Stat_t.mk 0 0))) none).HavePerm
          0o600
        = .ok true ↔
      ∀ i, (0o600 : Nat).testBit i = true →
        ((0o644 : Nat) &&& ModePerm).testBit i = true :=
  havePerm_iff_all_bits
    (SystemPath.mk (some (FileInfo.mk 0o644 0 (Stat_t.mk 0 0))) none)
    (FileInfo.mk 0o644 0 (Stat_t.mk 0 0)) 0o600 rfl rfl

/-- C7: on a successfully constructed snapshot, each of the nine fixed
class/access predicates tests exactly one mode bit, at the conventional
POSIX position: owner-read is bit 8 (0400), owner-write bit 7 (0200),
owner-execute bit 6 (0100), group-read bit 5 (0040), group-write bit 4
(0020), group-execute bit 3 (0010), other-read bit 2 (0004), other-write
bit 1 (0002), other-execute bit 0 (0001). -/
theorem class_predicates_single_bits (s : SystemPath) (fi : FileInfo)
    (he : s.err = none) (hs : s.stat = some fi) :
    s.IsOwnerReadable = .ok (fi.mode.testBit 8) ∧
      s.IsOwnerWriteable = .ok (fi.mode.testBit 7) ∧
      s.IsOwnerExecutable = .ok (fi.mode.testBit 6) ∧
      s.IsGroupReadable = .ok (fi.mode.testBit 5) ∧
      s.IsGroupWriteable = .ok (fi.mode.testBit 4) ∧
      s.IsGroupExecutable = .ok (fi.mode.testBit 3) ∧
      s.IsOtherReadable = .ok (fi.mode.testBit 2) ∧
      s.IsOtherWriteable = .ok (fi.mode.testBit 1) ∧
      s.IsOtherExecutable = .ok (fi.mode.testBit 0) := by
  have key : ∀ b i : Nat, b = 2 ^ i → (0o777 : Nat).testBit i = true →
      s.HavePerm b = .ok (fi.mode.testBit i) := by
    rintro b i rfl h7
    have e : s.HavePerm (2 ^ i)
        = .ok (decide ((fi.mode &&& 0o777) &&& 2 ^ i = 2 ^ i)) := by
      simp [SystemPath.HavePerm, he, hs, ModePerm]
    rw [e, decide_perm_bit fi.mode i h7]
  exact ⟨key IRUSR 8 (by norm_num [IRUSR]) (by decide),
    key IWUSR 7 (by norm_num [IWUSR]) (by decide),
    key IXUSR 6 (by norm_num [IXUSR]) (by decide),
    key IRGRP 5 (by norm_num [IRGRP]) (by decide),
    key IWGRP 4 (by norm_num [IWGRP]) (by decide),
    key IXGRP 3 (by norm_num [IXGRP]) (by decide),
    key IROTH 2 (by norm_num [IROTH]) (by decide),
    key IWOTH 1 (by norm_num [IWOTH]) (by decide),
    key IXOTH 0 (by norm_num [IXOTH]) (by decide)⟩

/-- Witness for C7 at mode 0754. -/
theorem class_predicates_single_bits_witness :
    (SystemPath.mk (some (FileInfo.mk 0o754 0 (Stat_t.mk 0 0)))
          none).IsOwnerReadable
        = .ok ((0o754 : Nat).testBit 8) ∧
      (SystemPath.mk (some (FileInfo.mk 0o754 0 (Stat_t.mk 0 0)))
          none).IsOwnerWriteable
        = .ok ((0o754 : Nat).testBit 7) ∧
      (SystemPath.mk (some (FileInfo.mk 0o754 0 (Stat_t.mk 0 0)))
          none).IsOwnerExecutable
        = .ok ((0o754 : Nat).testBit 6) ∧
      (SystemPath.mk (some (FileInfo.mk 0o754 0 (Stat_t.mk 0 0)))
          none).IsGroupReadable
        = .ok ((0o754 : Nat).testBit 5) ∧
      (SystemPath.mk (some (FileInfo.mk 0o754 0 (Stat_t.mk 0 0)))
          none).IsGroupWriteable
        = .ok ((0o754 : Nat).testBit 4) ∧
      (SystemPath.mk (some (FileInfo.mk 0o754 0 (Stat_t.mk 0 0)))
          none).IsGroupExecutable
        = .ok ((0o754 : Nat).testBit 3) ∧
      (SystemPath.mk (some (FileInfo.mk 0o754 0 (Stat_t.mk 0 0)))
          none).IsOtherReadable
        = .ok ((0o754 : Nat).testBit 2) ∧
      (SystemPath.mk (some (FileInfo.mk 0o754 0 (Stat_t.mk 0 0)))
          none).IsOtherWriteable
        = .ok ((0o754 : Nat).testBit 1) ∧
      (SystemPath.mk (some (FileInfo.mk 0o754 0 (Stat_t.mk 0 0)))
          none).IsOtherExecutable
        = .ok ((0o754 : Nat).testBit 0) :=
  class_predicates_single_bits
    (SystemPath.mk (some (FileInfo.mk 0o754 0 (Stat_t.mk 0 0))) none)
    (FileInfo.mk 0o754 0 (Stat_t.mk 0 0)) rfl rfl

/-- C1: evaluation at a concrete input refuting owner → group → other
resolution as specified. The path has owner uid 1, gid 2 and mode 0070
(group may read, write and execute; nobody else may); the process has real
uid 3 and real gid 2. The path's gid equals the process's real gid and the
group bits are set, so the specified resolution yields true for all three
accesses; the code answers false for all three, because the group
comparison uses the value `GetGID` extracted — the path's uid, not its
gid — so no branch matches and the other-class bits decide. -/
theorem resolution_group_branch_eval :
    (FileInfo.mk 0o070 0 (Stat_t.mk 1 2)).sys.gid
        = goUInt32OfInt ((UserDetails.mk 3 2 3 2).GetGID) ∧
      (SystemPath.mk (some (FileInfo.mk 0o070 0 (Stat_t.mk 1 2)))
            none).IsGroupReadable
          = .ok true ∧
      (SystemPath.mk (some (FileInfo.mk 0o070 0 (Stat_t.mk 1 2)))
            none).IsGroupWriteable
          = .ok true ∧
      (SystemPath.mk (some (FileInfo.mk 0o070 0 (Stat_t.mk 1 2)))
            none).IsGroupExecutable
          = .ok true ∧
      (SystemPath.mk (some (FileInfo.mk 0o070 0 (Stat_t.mk 1 2)))
            none).IsReadable (UserDetails.mk 3 2 3 2)
          = .ok false ∧
      (SystemPath.mk (some (FileInfo.mk 0o070 0 (Stat_t.mk 1 2)))
            none).IsWriteable (UserDetails.mk 3 2 3 2)
          = .ok false ∧
      (SystemPath.mk (some (FileInfo.mk 0o070 0 (Stat_t.mk 1 2)))
            none).IsExecutible (UserDetails.mk 3 2 3 2)
          = .ok false := by
  decide

/-- C2: evaluation showing that `GetGID` returns the owner *uid*. On a
snapshot whose stat data carries uid 1000 and gid 2000, `GetGID` answers
1000 — the uid, not the group id 2000 — because the source reads the `Uid`
field; `GetUID` answers 1000 correctly. -/
theorem getGID_returns_owner_uid :
    (SystemPath.mk (some (FileInfo.mk 0 0 (Stat_t.mk 1000 2000))) none).GetGID
        = .ok (1000, none) ∧
      (SystemPath.mk (some (FileInfo.mk 0 0 (Stat_t.mk 1000 2000)))
            none).GetUID
          = .ok (1000, none) ∧
      (1000 : Nat) ≠ (FileInfo.mk 0 0 (Stat_t.mk 1000 2000)).sys.gid := by
  decide

/-- C8: `GetCurrentDir` returns the empty string when the lookup failed,
whatever the flag; on success with the flag set the result ends with the
path separator; with the flag clear the result is the looked-up directory
unchanged, hence (for a directory not already ending in the separator) it
does not end with the separator. -/
theorem getCurrentDir_spec (d : String) (e : GoError) (b : Bool)
    (h : lastChar d ≠ some PathSeparator) :
    GetCurrentDir (d, some e) b = "" ∧
      lastChar (GetCurrentDir (d, none) true) = some PathSeparator ∧
      GetCurrentDir (d, none) false = d ∧
      lastChar (GetCurrentDir (d, none) false) ≠ some PathSeparator := by
  refine ⟨rfl, ?_, rfl, h⟩
  show (d ++ String.singleton PathSeparator).data.getLast? = some PathSeparator
  rcases d with ⟨cs⟩
  show (cs ++ [PathSeparator]).getLast? = some PathSeparator
  exact List.getLast?_concat cs

/-- Witness for C8 with working directory "/home". -/
theorem getCurrentDir_spec_witness :
    GetCurrentDir ("/home", some GoError.other) false = "" ∧
      lastChar (GetCurrentDir ("/home", none) true) = some PathSeparator ∧
      GetCurrentDir ("/home", none) false = "/home" ∧
      lastChar (GetCurrentDir ("/home", none) false) ≠ some PathSeparator :=
  getCurrentDir_spec "/home" GoError.other false (by decide)

/-- C9: every query is a pure, deterministic function of the data captured
at construction: two snapshots with the same captured stat record and the
same captured error answer every query identically. The three
effective-permission queries additionally take the identity snapshot that
Go fetches at call time; with the same identity they too agree. -/
theorem queries_pure_of_captured_data (s t : SystemPath) (m p : Nat)
    (u : UserDetails) (hstat : s.stat = t.stat) (herr : s.err = t.err) :
    s.HaveError = t.HaveError ∧ s.Error = t.Error ∧ s.IsExist = t.IsExist ∧
      s.IsStat m = t.IsStat m ∧ s.IsDir = t.IsDir ∧
      s.IsSymlink = t.IsSymlink ∧ s.IsAppend = t.IsAppend ∧
      s.IsExclusive = t.IsExclusive ∧ s.IsTemporary = t.IsTemporary ∧
      s.IsDevice = t.IsDevice ∧ s.IsNamedPipe = t.IsNamedPipe ∧
      s.IsSocket = t.IsSocket ∧ s.IsCharDevice = t.IsCharDevice ∧
      s.HasSetUID = t.HasSetUID ∧ s.HasSetGid = t.HasSetGid ∧
      s.IsSticky = t.IsSticky ∧ s.IsRegularFile = t.IsRegularFile ∧
      s.HavePerm p = t.HavePerm p ∧
      s.IsOwnerReadable = t.IsOwnerReadable ∧
      s.IsOwnerWriteable = t.IsOwnerWriteable ∧
      s.IsOwnerExecutable = t.IsOwnerExecutable ∧
      s.IsGroupReadable = t.IsGroupReadable ∧
      s.IsGroupWriteable = t.IsGroupWriteable ∧
      s.IsGroupExecutable = t.IsGroupExecutable ∧
      s.IsOtherReadable = t.IsOtherReadable ∧
      s.IsOtherWriteable = t.IsOtherWriteable ∧
      s.IsOtherExecutable = t.IsOtherExecutable ∧
      s.GetUID = t.GetUID ∧ s.GetGID = t.GetGID ∧ s.Size = t.Size ∧
      s.IsReadable u = t.IsReadable u ∧ s.IsWriteable u = t.IsWriteable u ∧
      s.IsExecutible u = t.IsExecutible u := by
  obtain ⟨sst, serr⟩ := s
  obtain ⟨tst, terr⟩ := t
  change sst = tst at hstat
  change serr = terr at herr
  subst hstat
  subst herr
  exact ⟨rfl, rfl, rfl, rfl, rfl, rfl, rfl, rfl, rfl, rfl, rfl, rfl, rfl,
    rfl, rfl, rfl, rfl, rfl, rfl, rfl, rfl, rfl, rfl, rfl, rfl, rfl, rfl,
    rfl, rfl, rfl, rfl, rfl, rfl⟩

/-- Witness for C9 at a concrete snapshot, mask, permission and identity. -/
theorem queries_pure_of_captured_data_witness :
    sampleSnapshot.HaveError = sampleSnapshot.HaveError ∧
      sampleSnapshot.Error = sampleSnapshot.Error ∧
      sampleSnapshot.IsExist = sampleSnapshot.IsExist ∧
      sampleSnapshot.IsStat ModeDir = sampleSnapshot.IsStat ModeDir ∧
      sampleSnapshot.IsDir = sampleSnapshot.IsDir ∧
      sampleSnapshot.IsSymlink = sampleSnapshot.IsSymlink ∧
      sampleSnapshot.IsAppend = sampleSnapshot.IsAppend ∧
      sampleSnapshot.IsExclusive = sampleSnapshot.IsExclusive ∧
      sampleSnapshot.IsTemporary = sampleSnapshot.IsTemporary ∧
      sampleSnapshot.IsDevice = sampleSnapshot.IsDevice ∧
      sampleSnapshot.IsNamedPipe = sampleSnapshot.IsNamedPipe ∧
      sampleSnapshot.IsSocket = sampleSnapshot.IsSocket ∧
      sampleSnapshot.IsCharDevice = sampleSnapshot.IsCharDevice ∧
      sampleSnapshot.HasSetUID = sampleSnapshot.HasSetUID ∧
      sampleSnapshot.HasSetGid = sampleSnapshot.HasSetGid ∧
      sampleSnapshot.IsSticky = sampleSnapshot.IsSticky ∧
      sampleSnapshot.IsRegularFile = sampleSnapshot.IsRegularFile ∧
      sampleSnapshot.HavePerm 0o644 = sampleSnapshot.HavePerm 0o644 ∧
      sampleSnapshot.IsOwnerReadable = sampleSnapshot.IsOwnerReadable ∧
      sampleSnapshot.IsOwnerWriteable = sampleSnapshot.IsOwnerWriteable ∧
      sampleSnapshot.IsOwnerExecutable = sampleSnapshot.IsOwnerExecutable ∧
      sampleSnapshot.IsGroupReadable = sampleSnapshot.IsGroupReadable ∧
      sampleSnapshot.IsGroupWriteable = sampleSnapshot.IsGroupWriteable ∧
      sampleSnapshot.IsGroupExecutable = sampleSnapshot.IsGroupExecutable ∧
      sampleSnapshot.IsOtherReadable = sampleSnapshot.IsOtherReadable ∧
      sampleSnapshot.IsOtherWriteable = sampleSnapshot.IsOtherWriteable ∧
      sampleSnapshot.IsOtherExecutable = sampleSnapshot.IsOtherExecutable ∧
      sampleSnapshot.GetUID = sampleSnapshot.GetUID ∧
      sampleSnapshot.GetGID = sampleSnapshot.GetGID ∧
      sampleSnapshot.Size = sampleSnapshot.Size ∧
      sampleSnapshot.IsReadable sampleUser
          = sampleSnapshot.IsReadable sampleUser ∧
      sampleSnapshot.IsWriteable sampleUser
          = sampleSnapshot.IsWriteable sampleUser ∧
      sampleSnapshot.IsExecutible sampleUser
          = sampleSnapshot.IsExecutible sampleUser :=
  queries_pure_of_captured_data sampleSnapshot sampleSnapshot ModeDir 0o644
    sampleUser rfl rfl
